import Mathlib

/-!
Verification development for the htmlbars-runtime template core
(src/packages/htmlbars-runtime/lib/template.ts).

The TypeScript source is shallowly embedded: each class of the statement and
expression AST becomes a constructor of an inductive type, the `fromSpec` /
`build` static constructors become Lean functions, and `evaluate` is modelled
as a pure function from a Frame to a description of the single Builder call or
render-node ("morph") creation that the source performs.  JavaScript `null` and
`undefined` are both modelled as `Option.none`; `InternedString` is `String`
(`intern` is the identity); opaque decoder metadata (`meta`, `spec`) carried by
Template objects is not modelled because no operation of the file reads it.
-/

namespace Glimmer

/-- A JavaScript value as it flows through the template core: literals placed
in specs, evaluated reference values, and the composite
array/dictionary values produced by the evaluated argument forms. -/
inductive JSValue where
  | str (s : String)
  | num (n : Int)
  | bool (b : Bool)
  | null
  | arr (xs : List JSValue)
  | obj (pairs : List (String × JSValue))
deriving Repr

/-- JavaScript dictionary assignment `out[key] = val` on an insertion-ordered
dictionary: an existing key keeps its position and gets the new value,
a new key is appended. -/
def dictInsert {α : Type} : List (String × α) → String → α → List (String × α)
  | [], k, v => [(k, v)]
  | (k', v') :: rest, k, v =>
    if k' == k then (k', v) :: rest else (k', v') :: dictInsert rest k v

/-- Fold a parallel key/value traversal into a JavaScript dictionary
(`keys.forEach((k, i) => hash[k] = vals[i])`). -/
def buildDict {α : Type} (keys : List String) (vals : List α) : List (String × α) :=
  (keys.zip vals).foldl (fun d p => dictInsert d p.1 p.2) []

/- ## Wire encoding (sexps)

The compact positional array encoding consumed by the `fromSpec` decoders.
A tagged tuple `[tag, ...fields]` is modelled as a constructor carrying the
fields; the tag itself is recovered by `StatementSexp.tag`.  A nullable
params / hash sexp is an `Option`; a hash sexp (a flat array alternating keys
and expression sexps) is modelled as the list of its key/expression pairs. -/

/-- Wire encoding of an expression: a bare literal (any non-object payload)
or a tagged tuple dispatched through the expression-tag table
(`get`, `helper`, `concat`). -/
inductive ExprSpec where
  | literal (v : JSValue)
  | getS (parts : List String)
  | helperS (path : List String) (params : Option (List ExprSpec))
      (hash : Option (List (String × ExprSpec)))
  | concatS (params : Option (List ExprSpec))
deriving Repr

/-- Wire encoding of a statement: one constructor per statement tag. -/
inductive StatementSexp where
  | block (path : List String) (params : Option (List ExprSpec))
      (hash : Option (List (String × ExprSpec)))
      (templateId : Option Nat) (inverseId : Option Nat)
  | inline (path : List String) (params : Option (List ExprSpec))
      (hash : Option (List (String × ExprSpec))) (trust : Bool)
  | unknown (path : List String) (trust : Bool)
  | dynamicAttr (name : String) (value : ExprSpec) (ns : Option String)
  | dynamicProp (name : String) (value : ExprSpec) (ns : Option String)
  | component (path : String) (attrs : Option (List (String × ExprSpec)))
      (templateId : Option Nat) (inverseId : Option Nat)
  | text (content : String)
  | comment (value : String)
  | openElement (tag : String)
  | closeElement
  | staticAttr (name : String) (value : String) (ns : Option String)
deriving Repr

/-- The string tag (`statement[0]`) of a statement sexp, the key used for
constructor dispatch and for the `BOUNDARY_CANDIDATES` membership test. -/
def StatementSexp.tag : StatementSexp → String
  | .block .. => "block"
  | .inline .. => "inline"
  | .unknown .. => "unknown"
  | .dynamicAttr .. => "dynamicAttr"
  | .dynamicProp .. => "dynamicProp"
  | .component .. => "component"
  | .text _ => "text"
  | .comment _ => "comment"
  | .openElement _ => "openElement"
  | .closeElement => "closeElement"
  | .staticAttr .. => "staticAttr"

/- ## Expression AST

`Value`, `Get`, `Helper`, `Concat` from the source, together with the
composite argument containers `Params`, `Hash`, `ParamsAndHash` that `Helper`
(and the statements) carry.  The `Ref` class is just an interned path; its
path list is inlined where the source stores a `Ref`. -/

mutual
inductive ExpressionSyntax where
  | value (v : JSValue)
  | get (parts : List String)
  | helper (path : List String) (args : ParamsAndHash)
  | concat (parts : Params)

inductive Params where
  | mk (params : List ExpressionSyntax)

inductive Hash where
  | mk (keys : List String) (values : List ExpressionSyntax)

inductive ParamsAndHash where
  | mk (params : Params) (hash : Hash)
end

def Params.params : Params → List ExpressionSyntax
  | .mk l => l

def Hash.keys : Hash → List String
  | .mk ks _ => ks

def Hash.values : Hash → List ExpressionSyntax
  | .mk _ vs => vs

def ParamsAndHash.params : ParamsAndHash → Params
  | .mk p _ => p

def ParamsAndHash.hash : ParamsAndHash → Hash
  | .mk _ h => h

/-- `Params.empty()`: the shared empty positional-argument list. -/
def Params.empty : Params := .mk []

/-- `Hash.empty()`: the shared empty keyed-argument map. -/
def Hash.empty : Hash := .mk [] []

/-- `ParamsAndHash.empty()`: the shared empty argument pairing. -/
def ParamsAndHash.empty : ParamsAndHash := .mk Params.empty Hash.empty

/-- `isStatic` of an expression: `Value` extends `StaticExpression`
(always static); `Get`, `Helper` and `Concat` are always dynamic. -/
def ExpressionSyntax.isStatic : ExpressionSyntax → Bool
  | .value _ => true
  | _ => false

/-- The accumulator pass of a JavaScript `split` on a one-character
separator: collect characters until a dot, emit the collected segment, and
always emit the pending segment at the end (so the empty string splits to
one empty segment, exactly as `"".split(".")` does). -/
def splitDotAux : List Char → List Char → List String
  | [], acc => [String.mk acc.reverse]
  | c :: rest, acc =>
    if c = '.' then String.mk acc.reverse :: splitDotAux rest [] else splitDotAux rest (c :: acc)

/-- `internPath`: split a dotted path string into its interned segments
(JavaScript `path.split('.')`, written as a structural recursion over the
characters so that concrete paths reduce). -/
def internPath (path : String) : List String := splitDotAux path.toList []

mutual
/-- `buildExpression`: a bare literal decodes to a constant `Value`; a tagged
array payload is dispatched through the expression-tag table. -/
def buildExpression : ExprSpec → ExpressionSyntax
  | .literal v => .value v
  | .getS parts => .get parts
  | .helperS path params hash => .helper path (.mk (Params.fromSpec params) (Hash.fromSpec hash))
  | .concatS params => .concat (Params.fromSpec params)

/-- `Params.fromSpec`: a missing or empty params sexp decodes to the shared
empty list, otherwise each element is decoded by `buildExpression`. -/
def Params.fromSpec : Option (List ExprSpec) → Params
  | none => Params.empty
  | some [] => Params.empty
  | some l => .mk (buildExpressionList l)

/-- `Hash.fromSpec`: a missing hash sexp decodes to the shared empty hash;
otherwise the flat key/expression pairs are split into the parallel
`keys` / `values` lists, decoding each value expression. -/
def Hash.fromSpec : Option (List (String × ExprSpec)) → Hash
  | none => Hash.empty
  | some pairs => .mk (pairs.map Prod.fst) (buildHashValues pairs)

def buildExpressionList : List ExprSpec → List ExpressionSyntax
  | [] => []
  | e :: rest => buildExpression e :: buildExpressionList rest

def buildHashValues : List (String × ExprSpec) → List ExpressionSyntax
  | [] => []
  | (_, e) :: rest => buildExpression e :: buildHashValues rest
end

/-- `ParamsAndHash.fromSpec`: pair the decoded params and hash. -/
def ParamsAndHash.fromSpec (params : Option (List ExprSpec))
    (hash : Option (List (String × ExprSpec))) : ParamsAndHash :=
  .mk (Params.fromSpec params) (Hash.fromSpec hash)

/-- `Hash.build`: an `undefined` dictionary builds the shared empty hash;
otherwise the dictionary's keys and values (in insertion order) are pushed
into the parallel `keys` / `values` lists. -/
def Hash.build (hash : Option (List (String × ExpressionSyntax))) : Hash :=
  match hash with
  | none => Hash.empty
  | some pairs => .mk (pairs.map Prod.fst) (pairs.map Prod.snd)

/-- `Params.build`: wrap already-constructed expressions. -/
def Params.build (exprs : List ExpressionSyntax) : Params := .mk exprs

/-- `ParamsAndHash.build`: pair already-constructed params and hash. -/
def ParamsAndHash.build (params : Params) (hash : Hash) : ParamsAndHash :=
  .mk params hash

/- ## Runtime references

Modelled from the spec: the reference primitives (`ConstReference`,
chainable references obtained from the scope, `PushPullReference`) live in the
external htmlbars-reference package, which is not part of the sources being
verified.  A runtime reference is therefore represented structurally: `leaf`
is an opaque chainable reference handed out by the frame's scope (its current
value lives in a mutable store indexed by `Nat` ids, and a push-based
invalidation is modelled as a change of that store); the remaining
constructors are the reference combinators this file itself constructs.
`helperConst` is the `ConstReference` wrapping a helper function returned by
`Frame.lookupHelper`; the function itself is kept in an environment table
indexed by `Nat` ids. -/
inductive RefNode where
  | leaf (id : Nat)
  | constRef (v : JSValue)
  | helperConst (id : Nat)
  | getChild (parent : RefNode) (segment : String)
  | helperInvocation (helper : RefNode) (args : RefNode)
  | concatRef (parts : List RefNode)
  | evaluatedParams (references : List RefNode)
  | evaluatedHash (keys : List String) (values : List RefNode)
  | evaluatedParamsAndHash (paramsRef : RefNode) (hashRef : RefNode)

/-- Modelled from the spec: the set of source references a push-pull
combinator registered via `_addSource` (or, for `ConcatReference`, via
`part.chain(this)`); a push from any registered source invalidates the
combinator.  Which children are registered is read off the constructors in
template.ts: `HelperInvocationReference` adds both its helper and its args,
`EvaluatedParams` and `EvaluatedHash` add every child reference, and
`EvaluatedParamsAndHash` adds only `paramsRef` (its `hashRef` is built with
`hash.evaluate(frame)` and never passed to `_addSource`). -/
def RefNode.sources : RefNode → List RefNode
  | .helperInvocation helper args => [helper, args]
  | .concatRef parts => parts
  | .evaluatedParams references => references
  | .evaluatedHash _ values => values
  | .evaluatedParamsAndHash paramsRef _ => [paramsRef]
  | _ => []

/-- Simplified JavaScript property access used by the chainable reference
narrowing step `.get(segment)`; the narrowing algorithm itself is external
(htmlbars-reference), so only dictionary lookup is modelled. -/
def jsGet (v : JSValue) (segment : String) : JSValue :=
  match v with
  | .obj pairs => ((pairs.find? (fun p => p.1 == segment)).map Prod.snd).getD .null
  | _ => .null

/-- JavaScript string coercion for the values joined by `ConcatReference`
(primitive cases only; composite coercion is not exercised here). -/
def jsToString : JSValue → String
  | .str s => s
  | .num n => toString n
  | .bool b => if b then "true" else "false"
  | .null => "null"
  | .arr _ => ""
  | .obj _ => ""

mutual
/-- Pull (`value()`) a reference: recompute lazily from the current store.
`helperConst` wraps a helper function, not a data value, so pulling it
directly is not meaningful and yields `null`; `helperInvocation` applies the
wrapped function to the pulled argument bundle. -/
def RefNode.value (helpers : Nat → JSValue → JSValue) (store : Nat → JSValue) :
    RefNode → JSValue
  | .leaf id => store id
  | .constRef v => v
  | .helperConst _ => .null
  | .getChild parent segment => jsGet (parent.value helpers store) segment
  | .helperInvocation helper args =>
    match helper with
    | .helperConst id => helpers id (args.value helpers store)
    | _ => .null
  | .concatRef parts => .str (String.join ((RefNode.valueList helpers store parts).map jsToString))
  | .evaluatedParams references => .arr (RefNode.valueList helpers store references)
  | .evaluatedHash keys values => .obj (buildDict keys (RefNode.valueList helpers store values))
  | .evaluatedParamsAndHash paramsRef hashRef =>
    .obj [("params", paramsRef.value helpers store), ("hash", hashRef.value helpers store)]

def RefNode.valueList (helpers : Nat → JSValue → JSValue) (store : Nat → JSValue) :
    List RefNode → List JSValue
  | [] => []
  | r :: rest => r.value helpers store :: RefNode.valueList helpers store rest
end

/-- The scope-chain / environment contract consumed by evaluation
(`Frame` in the source; its own resolution algorithms are external).
A component definition is opaque and represented by a `Nat` id. -/
structure Frame where
  getBase : String → RefNode
  hasHelper : List String → Bool
  lookupHelper : List String → RefNode
  getComponentDefinition : List String → Option Nat

/-- `Ref.evaluate`: resolve the first path segment via scope-chain base
lookup, then each subsequent segment by a `.get(segment)` narrowing step.
Decoded paths are never empty; the empty case resolves the base of the empty
name, mirroring `getBase(parts[0])` with `parts[0]` absent. -/
def Ref.evaluate (frame : Frame) (parts : List String) : RefNode :=
  match parts with
  | [] => frame.getBase ""
  | p :: rest => rest.foldl (fun path segment => RefNode.getChild path segment) (frame.getBase p)

/-- `Ref.isHelper`: whether the frame has a helper registered at this path. -/
def Ref.isHelper (frame : Frame) (parts : List String) : Bool :=
  frame.hasHelper parts

mutual
/-- `evaluate(frame)` for expressions: `Value` wraps its literal in a
`ConstReference`; `Get` resolves its ref against the frame; `Helper` builds a
`HelperInvocationReference` from the looked-up helper and its evaluated
arguments; `Concat` builds a `ConcatReference` over its evaluated parts. -/
def ExpressionSyntax.evaluate (frame : Frame) : ExpressionSyntax → RefNode
  | .value v => .constRef v
  | .get parts => Ref.evaluate frame parts
  | .helper path args => .helperInvocation (frame.lookupHelper path) (ParamsAndHash.evaluate frame args)
  | .concat parts =>
    match parts with
    | .mk l => .concatRef (evalExpressionList frame l)

/-- `Params.evaluate`: an `EvaluatedParams` push-pull reference whose child
references are each evaluated and registered via `_addSource`. -/
def Params.evaluate (frame : Frame) : Params → RefNode
  | .mk l => .evaluatedParams (evalExpressionList frame l)

/-- `Hash.evaluate`: an `EvaluatedHash` push-pull reference keeping the keys
in insertion order, each value reference evaluated and registered via
`_addSource`.  (The source method also fills a local `out` array that it
never uses; that dead computation is not modelled.) -/
def Hash.evaluate (frame : Frame) : Hash → RefNode
  | .mk keys values => .evaluatedHash keys (evalExpressionList frame values)

/-- `ParamsAndHash.evaluate`: an `EvaluatedParamsAndHash` push-pull reference
over the evaluated params reference and the evaluated hash reference. -/
def ParamsAndHash.evaluate (frame : Frame) : ParamsAndHash → RefNode
  | .mk params hash => .evaluatedParamsAndHash (Params.evaluate frame params) (Hash.evaluate frame hash)

def evalExpressionList (frame : Frame) : List ExpressionSyntax → List RefNode
  | [] => []
  | e :: rest => ExpressionSyntax.evaluate frame e :: evalExpressionList frame rest
end

/-- `EvaluatedParamsAndHash.empty()`: `ParamsAndHash.empty().evaluate(null)` —
the frame is never consulted because both child lists are empty, so the
result is the evaluated pairing of an empty params and an empty hash. -/
def EvaluatedParamsAndHash.emptyRef : RefNode :=
  .evaluatedParamsAndHash (.evaluatedParams []) (.evaluatedHash [] [])

/-- The frame-independence fact that justifies the `null` frame in
`EvaluatedParamsAndHash.empty()`. -/
theorem ParamsAndHash.evaluate_empty (frame : Frame) :
    ParamsAndHash.evaluate frame ParamsAndHash.empty = EvaluatedParamsAndHash.emptyRef := rfl

/-- The scan inside `EvaluatedHash.at`: walk the keys in insertion order in
lockstep with the value references and return the value at the first key
match (`keys.some((k, i) => ...)` with an early return).  A match whose value
slot is missing yields `undefined` in JavaScript, i.e. `none` here. -/
def hashAtScan : List String → List RefNode → String → Option RefNode
  | [], _, _ => none
  | _ :: _, [], _ => none
  | k :: ks, v :: vs, key => if k == key then some v else hashAtScan ks vs key

/-- `EvaluatedHash.at(key)` on an evaluated hash reference. -/
def EvaluatedHash.at : RefNode → String → Option RefNode
  | .evaluatedHash keys values, key => hashAtScan keys values key
  | _, _ => none

/-- `EvaluatedParams.nth(n)` on an evaluated params reference. -/
def EvaluatedParams.nth : RefNode → Nat → Option RefNode
  | .evaluatedParams references, n => references.get? n
  | _, _ => none

/- ## Statement AST and templates

Boundary markers (`frontBoundary` / `backBoundary`) are mutable flags set on
statement objects after construction, so a statement in a template is a
`MarkedStatement` wrapping the syntax node with its two flags (unset, i.e.
`undefined`, is `false`).  A `Template`'s `root` field in the source is the
(cyclic) sibling array the template was decoded from; the cycle is cut by
letting `root` and sub-template references store `TemplateBody` values, the
template data without the back-pointer. -/

mutual
inductive StatementSyntax where
  | block (path : List String) (args : ParamsAndHash) (templates : TemplatesPair)
  | inline (path : List String) (trustingMorph : Bool) (args : ParamsAndHash)
  | unknown (parts : List String) (trustingMorph : Bool)
  | dynamicAttr (name : String) (value : ExpressionSyntax) (ns : Option String)
  | dynamicProp (name : String) (value : ExpressionSyntax)
  | component (path : List String) (hash : Hash) (templates : TemplatesPair)
  | text (content : String)
  | comment (value : String)
  | openElement (tag : String)
  | closeElement
  | staticAttr (name : String) (value : JSValue) (ns : Option String)

inductive MarkedStatement where
  | mk (stmt : StatementSyntax) (frontBoundary : Bool) (backBoundary : Bool)

inductive TemplateBody where
  | mk (statements : List MarkedStatement) (locals : List String) (arity : Nat)
      (position : Option Nat) (isEmpty : Bool)

inductive TemplatesPair where
  | mk (_default : Option TemplateBody) (_inverse : Option TemplateBody)
end

def MarkedStatement.stmt : MarkedStatement → StatementSyntax
  | .mk s _ _ => s

def MarkedStatement.frontBoundary : MarkedStatement → Bool
  | .mk _ f _ => f

def MarkedStatement.backBoundary : MarkedStatement → Bool
  | .mk _ _ b => b

/-- `built[0].frontBoundary = true` on a statement object. -/
def MarkedStatement.setFront : MarkedStatement → MarkedStatement
  | .mk s _ b => .mk s true b

/-- `built[built.length - 1].backBoundary = true` on a statement object. -/
def MarkedStatement.setBack : MarkedStatement → MarkedStatement
  | .mk s f _ => .mk s f true

def TemplateBody.statements : TemplateBody → List MarkedStatement
  | .mk ss _ _ _ _ => ss

def TemplateBody.locals : TemplateBody → List String
  | .mk _ ls _ _ _ => ls

def TemplateBody.arity : TemplateBody → Nat
  | .mk _ _ a _ _ => a

def TemplateBody.position : TemplateBody → Option Nat
  | .mk _ _ _ p _ => p

def TemplateBody.isEmpty : TemplateBody → Bool
  | .mk _ _ _ _ e => e

def TemplatesPair._default : TemplatesPair → Option TemplateBody
  | .mk d _ => d

def TemplatesPair._inverse : TemplatesPair → Option TemplateBody
  | .mk _ i => i

/-- `Templates.fromSpec`: a `null` id is an absent sub-template; a non-null
id indexes directly into the sibling array supplied to the decode call
(an out-of-range index is `undefined`, i.e. `none`). -/
def TemplatesPair.fromSpec (templateId inverseId : Option Nat)
    (children : List TemplateBody) : TemplatesPair :=
  .mk (templateId.bind (children.get? ·)) (inverseId.bind (children.get? ·))

/-- `Templates.build`: pair already-constructed sub-templates. -/
def TemplatesPair.build (template inverse : Option TemplateBody) : TemplatesPair :=
  .mk template inverse

/-- `Templates.prettyPrint()`: the positions of the default and inverse
sub-templates (`null` when the sub-template is absent or has no position). -/
def TemplatesPair.prettyPrint (t : TemplatesPair) : Option Nat × Option Nat :=
  (t._default.bind TemplateBody.position, t._inverse.bind TemplateBody.position)

/-- `Templates.evaluate`: attempting to evaluate a `Templates` pairing as a
plain expression always throws. -/
def TemplatesPair.evaluate (_frame : Frame) (_t : TemplatesPair) : Except String RefNode :=
  .error "unimplemented evaluate for ExpressionSyntax"

/-- `StatementNodes[statement[0]].fromSpec(statement, list)`: per-tag
statement decoding.  (`dynamicProp` sexps carry a namespace slot that the
`DynamicProp` class destructures and discards, as here; `component` wraps its
single-segment path in a `Ref`.) -/
def StatementSyntax.fromSpec (sexp : StatementSexp) (list : List TemplateBody) :
    StatementSyntax :=
  match sexp with
  | .block path params hash templateId inverseId =>
    .block path (ParamsAndHash.fromSpec params hash) (TemplatesPair.fromSpec templateId inverseId list)
  | .inline path params hash trust =>
    .inline path trust (ParamsAndHash.fromSpec params hash)
  | .unknown path trust => .unknown path trust
  | .dynamicAttr name value ns => .dynamicAttr name (buildExpression value) ns
  | .dynamicProp name value _ns => .dynamicProp name (buildExpression value)
  | .component path attrs templateId inverseId =>
    .component [path] (Hash.fromSpec attrs) (TemplatesPair.fromSpec templateId inverseId list)
  | .text content => .text content
  | .comment value => .comment value
  | .openElement tag => .openElement tag
  | .closeElement => .closeElement
  | .staticAttr name value ns => .staticAttr name (.str value) ns

/-- `BOUNDARY_CANDIDATES`: the boundary-eligible statement tags. -/
def isBoundaryCandidate (tag : String) : Bool :=
  tag == "block" || tag == "inline" || tag == "unknown" || tag == "component"

/-- Whether `statements[0][0] in BOUNDARY_CANDIDATES`. -/
def boundaryHead (statements : List StatementSexp) : Bool :=
  match statements.head? with
  | some s => isBoundaryCandidate s.tag
  | none => false

/-- Whether `statements[statements.length - 1][0] in BOUNDARY_CANDIDATES`. -/
def boundaryLast (statements : List StatementSexp) : Bool :=
  match statements.getLast? with
  | some s => isBoundaryCandidate s.tag
  | none => false

/-- Mark the first statement's `frontBoundary` flag. -/
def markFront : List MarkedStatement → List MarkedStatement
  | [] => []
  | m :: rest => m.setFront :: rest

/-- Mark the last statement's `backBoundary` flag. -/
def markBack : List MarkedStatement → List MarkedStatement
  | [] => []
  | [m] => [m.setBack]
  | m :: rest => m :: markBack rest

/-- `buildStatements(statements, list)`: decode every statement sexp against
the sibling array, then mark the first statement `frontBoundary` if its tag
is boundary-eligible and the last statement `backBoundary` under the same
condition. -/
def buildStatements (statements : List StatementSexp) (list : List TemplateBody) :
    List MarkedStatement :=
  if statements.isEmpty then [] else
  let built := statements.map fun s => MarkedStatement.mk (StatementSyntax.fromSpec s list) false false
  let built := if boundaryHead statements then markFront built else built
  let built := if boundaryLast statements then markBack built else built
  built

/- ## Template construction -/

/-- One per-template descriptor of the wire spec format
(`meta` is opaque decoder metadata and is not modelled). -/
structure TemplateSpec where
  statements : List StatementSexp
  locals : Option (List String)

/-- A `Template`: its own data plus the sibling array it was decoded from
(`root`, `null` for programmatically built templates). -/
structure Template where
  body : TemplateBody
  root : Option (List TemplateBody)

/-- The `new Template({...})` call inside the `fromSpec` decode loop: the
statements are decoded against the sibling array as filled so far, `arity` is
the locals count (0 for `null` locals), and `isEmpty` records whether the
statements array was empty. -/
def decodedBody (spec : TemplateSpec) (position : Nat)
    (templates : List TemplateBody) : TemplateBody :=
  TemplateBody.mk (buildStatements spec.statements templates)
    (spec.locals.getD []) ((spec.locals.map List.length).getD 0) (some position)
    spec.statements.isEmpty

/-- The decode loop of `Template.fromSpec`: each spec is decoded against the
sibling array as filled so far (entries at or beyond the current position are
still `undefined` holes when the loop reaches position `i`, so a sub-template
reference can only resolve to an earlier sibling). -/
def Template.fromSpecGo : List TemplateSpec → Nat → List TemplateBody → List TemplateBody
  | [], _, templates => templates
  | spec :: rest, i, templates =>
    Template.fromSpecGo rest (i + 1) (templates ++ [decodedBody spec i templates])

/-- The decoded sibling array of `Template.fromSpec`. -/
def Template.fromSpecBodies (specs : List TemplateSpec) : List TemplateBody :=
  Template.fromSpecGo specs 0 []

/-- `Template.fromSpec(specs)`: decode every descriptor into the shared
sibling array and return its last element (`undefined`, i.e. `none`, when the
spec array is empty). -/
def Template.fromSpec (specs : List TemplateSpec) : Option Template :=
  ((Template.fromSpecBodies specs).getLast?).map
    (fun b => { body := b, root := some (Template.fromSpecBodies specs) })

/-- `Template.fromStatements(statements)`: programmatic construction — the
given statement objects are stored as-is (no boundary marking), `root`,
`position`, `locals` and `meta` are `null`, and `isEmpty` records whether the
statement list is empty. -/
def Template.fromStatements (statements : List MarkedStatement) : Template :=
  { body := TemplateBody.mk statements [] 0 none statements.isEmpty, root := none }

def Template.statements (t : Template) : List MarkedStatement := t.body.statements

def Template.isEmpty (t : Template) : Bool := t.body.isEmpty

/- ## Evaluation dispatch

Evaluating a statement against a builder performs exactly one builder
operation: either a direct output call (static statements) or the creation of
a render node (`createMorph` for attribute/property nodes, `createContentMorph`
for content-owning nodes).  A created render node is described by its kind and
the options the source passes to the builder. -/

/-- A render node created by a dynamic statement, by kind and creation
options. -/
inductive CreatedMorph where
  | componentMorph (definition : Nat) (attrs : Hash) (template : Option TemplateBody)
  | blockHelperMorph (helper : RefNode) (args : RefNode) (templates : TemplatesPair)
  | fallbackMorph (path : List String) (hash : Hash) (template : Option TemplateBody)
  | insertionMorph (content : RefNode) (trustingMorph : Bool)
  | helperMorph (content : RefNode) (trustingMorph : Bool)
  | attrMorph (name : String) (value : RefNode) (ns : Option String)
  | setPropertyMorph (name : String) (value : RefNode)

/-- A direct Builder output call performed by a static statement. -/
inductive BuilderCall where
  | appendText (content : String)
  | appendComment (value : String)
  | openElement (tag : String)
  | closeElement
  | setAttribute (name : String) (value : JSValue)
  | setAttributeNS (name : String) (value : JSValue) (ns : String)

/-- The single builder operation a statement's `evaluate` performs. -/
inductive EvalEffect where
  | builderCall (c : BuilderCall)
  | createMorph (m : CreatedMorph)
  | createContentMorph (m : CreatedMorph)

/-- `Params.empty()` evaluated is needed below; the `component` helper-branch
builds `new ParamsAndHash({ params: Params.empty(), hash: this.hash })` and
evaluates it. -/
def componentHelperArgs (frame : Frame) (hash : Hash) : RefNode :=
  ParamsAndHash.evaluate frame (.mk Params.empty hash)

/-- `evaluate(stack, frame)` for every statement kind, following the source
class by class:

* `Text` / `Comment` / `OpenElement` / `CloseElement` / `StaticAttr` perform
  one direct builder call (`StaticAttr` dispatches on its namespace);
* `DynamicAttr` / `DynamicProp` evaluate their value expression and create an
  attribute / property render node;
* `Unknown` resolves its ref first as a possible helper name: a registered
  helper yields a zero-argument `HelperInvocationReference` content, anything
  else a plain scope-chain lookup; either way one `InsertionMorph` content
  render node is created with the statement's trust flag;
* `Inline` always creates a `HelperMorph` whose content invokes the looked-up
  helper on the evaluated arguments;
* `Block` creates a `BlockHelperMorph` with the looked-up helper, evaluated
  arguments and the `Templates` pair;
* `Component` resolves three ways: a registered component definition yields a
  `ComponentMorph` with the attribute hash and default sub-template; else a
  registered helper of the same name yields a `BlockHelperMorph` with empty
  params and the attribute hash; else a `FallbackMorph` is created with the
  path, hash and default sub-template. -/
def StatementSyntax.evaluate (frame : Frame) : StatementSyntax → EvalEffect
  | .text content => .builderCall (.appendText content)
  | .comment value => .builderCall (.appendComment value)
  | .openElement tag => .builderCall (.openElement tag)
  | .closeElement => .builderCall .closeElement
  | .staticAttr name value ns =>
    match ns with
    | some n => .builderCall (.setAttributeNS name value n)
    | none => .builderCall (.setAttribute name value)
  | .dynamicAttr name value ns =>
    .createMorph (.attrMorph name (value.evaluate frame) ns)
  | .dynamicProp name value =>
    .createMorph (.setPropertyMorph name (value.evaluate frame))
  | .unknown parts trustingMorph =>
    let content :=
      if Ref.isHelper frame parts then
        RefNode.helperInvocation (frame.lookupHelper parts) EvaluatedParamsAndHash.emptyRef
      else
        Ref.evaluate frame parts
    .createContentMorph (.insertionMorph content trustingMorph)
  | .inline path trustingMorph args =>
    .createContentMorph (.helperMorph
      (.helperInvocation (frame.lookupHelper path) (ParamsAndHash.evaluate frame args))
      trustingMorph)
  | .block path args templates =>
    .createContentMorph (.blockHelperMorph (frame.lookupHelper path)
      (ParamsAndHash.evaluate frame args) templates)
  | .component path hash templates =>
    match frame.getComponentDefinition path with
    | some definition =>
      .createContentMorph (.componentMorph definition hash templates._default)
    | none =>
      if frame.hasHelper path then
        .createContentMorph (.blockHelperMorph (frame.lookupHelper path)
          (componentHelperArgs frame hash) templates)
      else
        .createContentMorph (.fallbackMorph path hash templates._default)

/-- The render node a statement evaluation created, if any. -/
def EvalEffect.morph? : EvalEffect → Option CreatedMorph
  | .createMorph m => some m
  | .createContentMorph m => some m
  | .builderCall _ => none

/-- The direct builder call a statement evaluation performed, if any. -/
def EvalEffect.call? : EvalEffect → Option BuilderCall
  | .builderCall c => some c
  | _ => none

/-- The namespace of the attribute render node created by an evaluation
(`some ns` when an `AttrMorph` was created with namespace `ns`). -/
def EvalEffect.attrMorphNamespace : EvalEffect → Option (Option String)
  | .createMorph (.attrMorph _ _ ns) => some ns
  | _ => none

/-- The trust flag of the content render node created by an evaluation. -/
def EvalEffect.trustFlag : EvalEffect → Option Bool
  | .createContentMorph (.insertionMorph _ t) => some t
  | .createContentMorph (.helperMorph _ t) => some t
  | _ => none

/-- Modelled from the spec: the Builder's `appendStatement` dispatches each
statement's `evaluate` against the stack, and the stack accumulates the
render nodes created along the way and the sequence of direct output calls.
`evaluateWithStack` walks the template's statements in order and bundles the
accumulated render-node list (with the scope and output bounds, not modelled)
into a `RenderResult`. -/
structure RenderResult where
  morphs : List CreatedMorph
  builderCalls : List BuilderCall

/-- The ordered builder operations of one template evaluation pass. -/
def TemplateBody.statementEffects (frame : Frame) (t : TemplateBody) : List EvalEffect :=
  t.statements.map (fun m => m.stmt.evaluate frame)

/-- `evaluateWithStack`: evaluate every statement in order, collecting the
created render nodes and direct builder calls. -/
def TemplateBody.evaluateWithStack (frame : Frame) (t : TemplateBody) : RenderResult :=
  { morphs := (t.statementEffects frame).filterMap EvalEffect.morph?
    builderCalls := (t.statementEffects frame).filterMap EvalEffect.call? }

/- ## Programmatic statement constructors (`build`) -/

/-- `StaticAttr.build(name, value, namespace = null)` (`intern` is the
identity; the value slot holds the evaluated value when called from
`FallbackMorph.init`). -/
def StaticAttr.build (name : String) (value : JSValue) (ns : Option String) :
    StatementSyntax :=
  .staticAttr name value ns

/-- `DynamicAttr.build(name, value, namespace = null)`. -/
def DynamicAttr.build (name : String) (value : ExpressionSyntax) (ns : Option String) :
    StatementSyntax :=
  .dynamicAttr name value ns

/-- `Unknown.build(path, unsafe)`. -/
def Unknown.build (path : String) (trust : Bool) : StatementSyntax :=
  .unknown (internPath path) trust

/-- `Inline.build(path, args, trust)`. -/
def Inline.build (path : String) (args : ParamsAndHash) (trust : Bool) : StatementSyntax :=
  .inline (internPath path) trust args

/-- `Block.build(options)`: passes the already-built path, args and templates
straight to the constructor. -/
def Block.build (path : List String) (args : ParamsAndHash) (templates : TemplatesPair) :
    StatementSyntax :=
  .block path args templates

/-- `DynamicProp.build(name, value)`. -/
def DynamicProp.build (name : String) (value : ExpressionSyntax) : StatementSyntax :=
  .dynamicProp name value

/-- `Component.build(path, options)`: wraps the path string in `Ref.build`
(splitting on dots) and pairs the already-built sub-templates.  The
`options.hash || null` default for a missing hash is not modelled: every
decoded component carries an actual `Hash` (`Hash.fromSpec` never yields
null), so the equivalent built argument is always present. -/
def Component.build (path : String) (hash : Hash)
    (tdefault tinverse : Option TemplateBody) : StatementSyntax :=
  .component (internPath path) hash (TemplatesPair.build tdefault tinverse)

/-- `Text.build(content)`. -/
def Text.build (content : String) : StatementSyntax := .text content

/-- `Comment.build(value)`. -/
def Comment.build (value : String) : StatementSyntax := .comment value

/-- `OpenElement.build(tag)`. -/
def OpenElement.build (tag : String) : StatementSyntax := .openElement tag

/-- `CloseElement.build()`. -/
def CloseElement.build : StatementSyntax := .closeElement

/-- The effective `TemplateBuilder.prototype.dynamicAttr`: the module-level
builder loop iterates the keys of `builders` and assigns
`TemplateBuilder.prototype` at each key a function pushing
`builders` at that key applied to all its arguments — assigning over the
class method — and the `dynamicAttr` entry of `builders` is
`DynamicAttr.build` bound to its class, so every argument, the namespace
included, is forwarded to `DynamicAttr.build`.  (The `dynamicAttr` method
declared inside the `TemplateBuilder` class body drops its namespace
argument, but it is shadowed by this prototype assignment and unreachable at
runtime.)  The statement pushed onto the builder's list is modelled as the
return value. -/
def TemplateBuilder.dynamicAttr (key : String) (value : ExpressionSyntax)
    (ns : Option String) : StatementSyntax :=
  DynamicAttr.build key value ns

/-- The effective `TemplateBuilder.prototype.staticAttr`: the same prototype
loop forwards both arguments to `StaticAttr.build` (the namespace defaults to
null on a two-argument call). -/
def TemplateBuilder.staticAttr (key : String) (value : String) : StatementSyntax :=
  StaticAttr.build key (.str value) none

/- ## FallbackMorph -/

/-- The state a `FallbackMorph` holds after `init`: the synthesized element
tag (`path[0]`), the default sub-template, and the attribute statements
re-derived once from the hash. -/
structure FallbackMorphState where
  tag : Option String
  template : Option TemplateBody
  attrs : List StatementSyntax

/-- `FallbackMorph.init({ path, hash, template })`: the tag is the first path
segment; each attribute expression of the hash is converted exactly once —
a static expression is baked into a `StaticAttr` built from its evaluated
value, every other expression becomes a `DynamicAttr`.  (The source iterates
`values` and indexes `keys`; the parallel traversal is the zip.) -/
def FallbackMorph.init (helpers : Nat → JSValue → JSValue) (store : Nat → JSValue)
    (frame : Frame) (path : List String) (hash : Hash) (template : Option TemplateBody) :
    FallbackMorphState :=
  { tag := path.head?
    template := template
    attrs := (hash.values.zip hash.keys).map fun p =>
      if p.1.isStatic then
        StaticAttr.build p.2 ((p.1.evaluate frame).value helpers store) none
      else
        DynamicAttr.build p.2 p.1 none }

/-- `FallbackMorph.update()`: a no-op — the morph state, in particular the
attribute conversion done at init time, is left untouched. -/
def FallbackMorph.update (st : FallbackMorphState) : FallbackMorphState := st

/- ## Debug serialization (`prettyPrint`) -/

/-- A `PrettyPrintValue`: either a raw string (path segments, attribute
names, text content), a raw literal (from `Value.prettyPrint`, which returns
its underlying value), or a `PrettyPrint` node with type, operation, optional
ordered params, optional keyed hash, and optional sub-template positions. -/
inductive PPValue where
  | s (str : String)
  | v (val : JSValue)
  | node (type : String) (operation : String) (params : Option (List PPValue))
      (hash : Option (List (String × PPValue))) (templates : Option (Option Nat × Option Nat))

mutual
/-- `prettyPrint()` for expressions: `Value` returns its raw literal, `Get`
wraps the joined ref path, `Helper` dumps its path with its arguments,
`Concat` dumps its parts. -/
def ExpressionSyntax.prettyPrint : ExpressionSyntax → PPValue
  | .value v => .v v
  | .get parts => .node "expr" "get" (some [.s (String.intercalate "." parts)]) none none
  | .helper path args =>
    .node "expr" (String.intercalate "." path) (some (ParamsAndHash.prettyPrintParams args))
      (some (ParamsAndHash.prettyPrintHash args)) none
  | .concat parts =>
    match parts with
    | .mk l => .node "expr" "concat" (some (ppExpressionList l)) none none

/-- `Params.prettyPrint()`: the dumps of the positional expressions. -/
def Params.prettyPrintList : Params → List PPValue
  | .mk l => ppExpressionList l

/-- `Hash.prettyPrint()`: a dictionary assigning each key its value's dump in
key order. -/
def Hash.prettyPrintDict : Hash → List (String × PPValue)
  | .mk keys values =>
    (keys.zip (ppExpressionList values)).foldl (fun out p => dictInsert out p.1 p.2) []

/-- The params half of `ParamsAndHash.prettyPrint()`. -/
def ParamsAndHash.prettyPrintParams : ParamsAndHash → List PPValue
  | .mk params _ => Params.prettyPrintList params

/-- The hash half of `ParamsAndHash.prettyPrint()`. -/
def ParamsAndHash.prettyPrintHash : ParamsAndHash → List (String × PPValue)
  | .mk _ hash => Hash.prettyPrintDict hash

def ppExpressionList : List ExpressionSyntax → List PPValue
  | [] => []
  | e :: rest => e.prettyPrint :: ppExpressionList rest
end

/-- The structural dump each statement class's `prettyPrint` method returns.
Every statement class of the source defines the method, so the duck-typed
lookup (`typeof obj.prettyPrint === 'function'`) succeeds on every
constructor; the `Option` is the result of that lookup. -/
def StatementSyntax.prettyPrintOf : StatementSyntax → Option PPValue
  | .block path args templates =>
    some (.node "block" "block"
      (some [.node "expr" (String.intercalate "." path)
        (some (ParamsAndHash.prettyPrintParams args))
        (some (ParamsAndHash.prettyPrintHash args)) none])
      none (some templates.prettyPrint))
  | .inline path trustingMorph args =>
    some (.node "append" (if trustingMorph then "append-html" else "append-text")
      (some [.node "expr" (String.intercalate "." path)
        (some (ParamsAndHash.prettyPrintParams args))
        (some (ParamsAndHash.prettyPrintHash args)) none])
      none none)
  | .unknown parts trustingMorph =>
    some (.node "append" (if trustingMorph then "append-html" else "append-text")
      (some [.node "expr" "unknown" (some [.s (String.intercalate "." parts)]) none none])
      none none)
  | .dynamicAttr name value ns =>
    some (.node "attr" "attr" (some [.s name, value.prettyPrint])
      (ns.map (fun n => [("namespace", PPValue.s n)])) none)
  | .dynamicProp name value =>
    some (.node "attr" "prop" (some [.s name, value.prettyPrint]) none none)
  | .component path hash templates =>
    some (.node "block" "component" (some [.s (String.intercalate "." path)])
      (some hash.prettyPrintDict) (some templates.prettyPrint))
  | .text content => some (.node "append" "append-text" (some [.s content]) none none)
  | .comment value => some (.node "append" "append-comment" (some [.s value]) none none)
  | .openElement tag => some (.node "element" "open-element" (some [.s tag]) none none)
  | .closeElement => some (.node "element" "close-element" none none none)
  | .staticAttr name value ns =>
    some (.node "attr" "attr" (some [.s name, .v value])
      (ns.map (fun n => [("namespace", PPValue.s n)])) none)

/-- The `pretty` helper inside `Template.prettyPrint`: a present
`prettyPrint` method is invoked, a missing one throws. -/
def pretty (dump : Option PPValue) : Except String PPValue :=
  match dump with
  | some d => .ok d
  | none => .error "Cannot pretty print"

/-- `Template.prettyPrint()`: maps over the whole sibling `root` array,
dumping every statement of every sibling template.  A programmatically built
template has `root === null`, so the `this.root.map` call throws. -/
def Template.prettyPrint (t : Template) : Except String (List (List PPValue)) :=
  match t.root with
  | none => .error "TypeError: this.root is null"
  | some root =>
    root.mapM (fun tb => tb.statements.mapM (fun m => pretty m.stmt.prettyPrintOf))

/- ## Concrete environments used to exercise the model -/

/-- A helper table for pulling values: every helper id maps to `null`. -/
def exampleHelpers : Nat → JSValue → JSValue := fun _ _ => .null

/-- A store of current leaf-reference values: every leaf is `null`. -/
def exampleStore : Nat → JSValue := fun _ => .null

/-- A frame with no helpers and no component definitions. -/
def exampleFrame : Frame :=
  { getBase := fun _ => .leaf 0
    hasHelper := fun _ => false
    lookupHelper := fun _ => .helperConst 0
    getComponentDefinition := fun _ => none }

/-- A frame with a component definition registered at path `my-box`. -/
def frameWithComponentDef : Frame :=
  { getBase := fun _ => .leaf 0
    hasHelper := fun _ => true
    lookupHelper := fun _ => .helperConst 1
    getComponentDefinition := fun p => if p == ["my-box"] then some 3 else none }

/-- A frame with a helper registered at path `titleize` and no component
definitions. -/
def frameHelperOnly : Frame :=
  { getBase := fun _ => .leaf 0
    hasHelper := fun p => p == ["titleize"]
    lookupHelper := fun _ => .helperConst 2
    getComponentDefinition := fun _ => none }

/-- The namespace stored on an attribute statement. -/
def StatementSyntax.attrNamespace : StatementSyntax → Option String
  | .dynamicAttr _ _ ns => ns
  | .staticAttr _ _ ns => ns
  | _ => none

/- ## Claim theorems -/

/-- Claim C8: evaluating a `Templates` pairing as a plain expression always
throws, regardless of the pairing and the frame supplied. -/
theorem c8_templates_evaluate_always_throws (t : TemplatesPair) (frame : Frame) :
    TemplatesPair.evaluate frame t
      = Except.error "unimplemented evaluate for ExpressionSyntax" := rfl

/-- Claim C1: decode/build parity — for every statement kind, decoding a wire
tuple with `fromSpec` and constructing with `build` from the equivalent
already-built arguments (the decoded fields; an interned path string for the
kinds whose `build` takes a path string) yield statements whose `evaluate`
against the same frame is identical; in particular a dynamic attribute with a
namespace built through the effective `TemplateBuilder.dynamicAttr` matches
the `DynamicAttr.fromSpec` decoding, namespace included. -/
theorem c1_decode_build_parity (frame : Frame) (list : List TemplateBody) :
    (∀ path params hash templateId inverseId,
      (StatementSyntax.fromSpec (.block path params hash templateId inverseId) list).evaluate
          frame
        = (Block.build path (ParamsAndHash.fromSpec params hash)
            (TemplatesPair.fromSpec templateId inverseId list)).evaluate frame)
    ∧ (∀ pathStr path params hash trust, internPath pathStr = path →
      (StatementSyntax.fromSpec (.inline path params hash trust) list).evaluate frame
        = (Inline.build pathStr (ParamsAndHash.fromSpec params hash) trust).evaluate frame)
    ∧ (∀ pathStr path trust, internPath pathStr = path →
      (StatementSyntax.fromSpec (.unknown path trust) list).evaluate frame
        = (Unknown.build pathStr trust).evaluate frame)
    ∧ (∀ name value ns,
      (StatementSyntax.fromSpec (.dynamicAttr name value ns) list).evaluate frame
        = (TemplateBuilder.dynamicAttr name (buildExpression value) ns).evaluate frame
      ∧ (TemplateBuilder.dynamicAttr name (buildExpression value) ns).attrNamespace = ns)
    ∧ (∀ name value ns,
      (StatementSyntax.fromSpec (.dynamicProp name value ns) list).evaluate frame
        = (DynamicProp.build name (buildExpression value)).evaluate frame)
    ∧ (∀ pathStr path attrs templateId inverseId, internPath pathStr = [path] →
      (StatementSyntax.fromSpec (.component path attrs templateId inverseId) list).evaluate
          frame
        = (Component.build pathStr (Hash.fromSpec attrs)
            (templateId.bind (list.get? ·)) (inverseId.bind (list.get? ·))).evaluate frame)
    ∧ (∀ content, (StatementSyntax.fromSpec (.text content) list).evaluate frame
        = (Text.build content).evaluate frame)
    ∧ (∀ value, (StatementSyntax.fromSpec (.comment value) list).evaluate frame
        = (Comment.build value).evaluate frame)
    ∧ (∀ tag, (StatementSyntax.fromSpec (.openElement tag) list).evaluate frame
        = (OpenElement.build tag).evaluate frame)
    ∧ ((StatementSyntax.fromSpec .closeElement list).evaluate frame
        = CloseElement.build.evaluate frame)
    ∧ (∀ name value ns,
      (StatementSyntax.fromSpec (.staticAttr name value ns) list).evaluate frame
        = (StaticAttr.build name (.str value) ns).evaluate frame) := by
  refine ⟨fun path params hash templateId inverseId => rfl,
    fun pathStr path params hash trust hp => ?_,
    fun pathStr path trust hp => ?_,
    fun name value ns => ⟨rfl, rfl⟩,
    fun name value ns => rfl,
    fun pathStr path attrs templateId inverseId hp => ?_,
    fun content => rfl, fun value => rfl, fun tag => rfl, rfl,
    fun name value ns => rfl⟩
  · subst hp; rfl
  · subst hp; rfl
  · simp only [Component.build, hp]
    rfl

/-- Witness for C1: the path-string hypotheses discharged at concrete inputs,
and the namespaced dynamic attribute evaluated identically on both paths. -/
theorem c1_witness :
    ((StatementSyntax.fromSpec (.unknown ["titleize"] false) []).evaluate exampleFrame
      = (Unknown.build "titleize" false).evaluate exampleFrame)
    ∧ ((StatementSyntax.fromSpec
          (.dynamicAttr "href" (.getS ["url"]) (some "http://www.w3.org/1999/xlink"))
          []).evaluate exampleFrame
        = (TemplateBuilder.dynamicAttr "href" (buildExpression (.getS ["url"]))
            (some "http://www.w3.org/1999/xlink")).evaluate exampleFrame)
    ∧ ((TemplateBuilder.dynamicAttr "href" (buildExpression (.getS ["url"]))
          (some "http://www.w3.org/1999/xlink")).attrNamespace
        = some "http://www.w3.org/1999/xlink")
    ∧ ((StatementSyntax.fromSpec (.component "my-box" none none none) []).evaluate exampleFrame
        = (Component.build "my-box" (Hash.fromSpec none) none none).evaluate exampleFrame) :=
  ⟨(c1_decode_build_parity exampleFrame []).2.2.1 "titleize" ["titleize"] false (by decide),
   ((c1_decode_build_parity exampleFrame []).2.2.2.1 "href" (.getS ["url"])
      (some "http://www.w3.org/1999/xlink")).1,
   ((c1_decode_build_parity exampleFrame []).2.2.2.1 "href" (.getS ["url"])
      (some "http://www.w3.org/1999/xlink")).2,
   (c1_decode_build_parity exampleFrame []).2.2.2.2.2.1 "my-box" "my-box" none none none
      (by decide)⟩

def c5Hash : Hash := .mk ["title"] [.value (.str "hello")]

def c5ParamsAndHash : ParamsAndHash := .mk Params.empty c5Hash

/-- Claim C5 (code bug): `EvaluatedParams` and `EvaluatedHash` register every
child reference as a push-pull source, but `EvaluatedParamsAndHash` registers
only its params reference — its hash reference is produced by
`hash.evaluate(frame)` without being passed through `_addSource`, so a push
from the hash side never invalidates the combinator. -/
theorem c5_evaluatedParamsAndHash_misses_hash_source :
    ParamsAndHash.evaluate exampleFrame c5ParamsAndHash
      = .evaluatedParamsAndHash (Params.evaluate exampleFrame Params.empty)
          (Hash.evaluate exampleFrame c5Hash)
    ∧ RefNode.sources (ParamsAndHash.evaluate exampleFrame c5ParamsAndHash)
        = [Params.evaluate exampleFrame Params.empty]
    ∧ Hash.evaluate exampleFrame c5Hash
        ∉ RefNode.sources (ParamsAndHash.evaluate exampleFrame c5ParamsAndHash)
    ∧ RefNode.sources (Hash.evaluate exampleFrame c5Hash)
        = evalExpressionList exampleFrame c5Hash.values
    ∧ RefNode.sources (Params.evaluate exampleFrame (.mk [.value (.num 1)]))
        = evalExpressionList exampleFrame [.value (.num 1)] := by
  refine ⟨rfl, rfl, fun hmem => ?_, rfl, rfl⟩
  simp only [ParamsAndHash.evaluate, Params.evaluate, Hash.evaluate, c5ParamsAndHash, c5Hash,
    Params.empty, RefNode.sources, List.mem_singleton] at hmem
  exact absurd hmem (by simp)

/-- Claim C6: `Unknown.evaluate` resolves its path first as a possible helper
name — a registered helper makes the content reference a zero-argument helper
invocation, otherwise the content is the plain scope-chain lookup of the
path — and in both cases it creates exactly one content render node carrying
the statement's trust flag. -/
theorem c6_unknown_resolves_helper_first (frame : Frame) (parts : List String) (trust : Bool) :
    (frame.hasHelper parts = true →
      (StatementSyntax.unknown parts trust).evaluate frame
        = .createContentMorph (.insertionMorph
            (.helperInvocation (frame.lookupHelper parts) EvaluatedParamsAndHash.emptyRef) trust))
    ∧ (frame.hasHelper parts = false →
      (StatementSyntax.unknown parts trust).evaluate frame
        = .createContentMorph (.insertionMorph (Ref.evaluate frame parts) trust))
    ∧ ((StatementSyntax.unknown parts trust).evaluate frame).trustFlag = some trust
    ∧ (((StatementSyntax.unknown parts trust).evaluate frame).morph?).isSome = true := by
  refine ⟨fun h => ?_, fun h => ?_, ?_, ?_⟩
  · simp [StatementSyntax.evaluate, Ref.isHelper, h]
  · simp [StatementSyntax.evaluate, Ref.isHelper, h]
  · by_cases h : frame.hasHelper parts <;>
      simp [StatementSyntax.evaluate, Ref.isHelper, h, EvalEffect.trustFlag]
  · by_cases h : frame.hasHelper parts <;>
      simp [StatementSyntax.evaluate, Ref.isHelper, h, EvalEffect.morph?]

/-- Witness for C6: both branches at concrete frames — `titleize` is a helper
in `frameHelperOnly` (zero-argument invocation content), and nothing is a
helper in `exampleFrame` (plain lookup content). -/
theorem c6_witness :
    (StatementSyntax.unknown ["titleize"] false).evaluate frameHelperOnly
      = .createContentMorph (.insertionMorph
          (.helperInvocation (frameHelperOnly.lookupHelper ["titleize"])
            EvaluatedParamsAndHash.emptyRef) false)
    ∧ (StatementSyntax.unknown ["user", "name"] true).evaluate exampleFrame
        = .createContentMorph (.insertionMorph (Ref.evaluate exampleFrame ["user", "name"]) true) :=
  ⟨(c6_unknown_resolves_helper_first frameHelperOnly ["titleize"] false).1 (by decide),
   (c6_unknown_resolves_helper_first exampleFrame ["user", "name"] true).2.1 (by decide)⟩

/-- Claim C2: `Component.evaluate` resolves in order — a registered component
definition yields a `ComponentMorph` with the default sub-template and the
attribute hash; otherwise a registered helper of the same name yields a
`BlockHelperMorph` with empty params and the hash; otherwise a
`FallbackMorph` is created whose synthesized element tag (set at init time)
is the first segment of the path. -/
theorem c2_component_resolution_order (frame : Frame) (path : List String)
    (hash : Hash) (templates : TemplatesPair) :
    (∀ d, frame.getComponentDefinition path = some d →
      (StatementSyntax.component path hash templates).evaluate frame
        = .createContentMorph (.componentMorph d hash templates._default))
    ∧ (frame.getComponentDefinition path = none → frame.hasHelper path = true →
      (StatementSyntax.component path hash templates).evaluate frame
        = .createContentMorph (.blockHelperMorph (frame.lookupHelper path)
            (ParamsAndHash.evaluate frame (.mk Params.empty hash)) templates))
    ∧ (frame.getComponentDefinition path = none → frame.hasHelper path = false →
      (StatementSyntax.component path hash templates).evaluate frame
        = .createContentMorph (.fallbackMorph path hash templates._default)
      ∧ ∀ helpers store template,
          (FallbackMorph.init helpers store frame path hash template).tag = path.head?) := by
  refine ⟨fun d hd => ?_, fun hd hh => ?_, fun hd hh => ⟨?_, fun helpers store template => rfl⟩⟩
  · simp [StatementSyntax.evaluate, hd]
  · simp [StatementSyntax.evaluate, hd, hh, componentHelperArgs]
  · simp [StatementSyntax.evaluate, hd, hh]

def c2Hash : Hash := .mk ["title"] [.value (.str "hi")]

def c2Templates : TemplatesPair := .mk none none

/-- Witness for C2: all three resolution outcomes at concrete frames. -/
theorem c2_witness :
    (StatementSyntax.component ["my-box"] c2Hash c2Templates).evaluate frameWithComponentDef
      = .createContentMorph (.componentMorph 3 c2Hash c2Templates._default)
    ∧ (StatementSyntax.component ["titleize"] c2Hash c2Templates).evaluate frameHelperOnly
        = .createContentMorph (.blockHelperMorph (frameHelperOnly.lookupHelper ["titleize"])
            (ParamsAndHash.evaluate frameHelperOnly (.mk Params.empty c2Hash)) c2Templates)
    ∧ (StatementSyntax.component ["unknown-tag"] c2Hash c2Templates).evaluate exampleFrame
        = .createContentMorph (.fallbackMorph ["unknown-tag"] c2Hash c2Templates._default)
    ∧ (FallbackMorph.init exampleHelpers exampleStore exampleFrame ["unknown-tag"] c2Hash
        none).tag = some "unknown-tag" :=
  ⟨(c2_component_resolution_order frameWithComponentDef ["my-box"] c2Hash c2Templates).1 3
      (by decide),
   (c2_component_resolution_order frameHelperOnly ["titleize"] c2Hash c2Templates).2.1
      (by decide) (by decide),
   ((c2_component_resolution_order exampleFrame ["unknown-tag"] c2Hash c2Templates).2.2
      (by decide) (by decide)).1,
   ((c2_component_resolution_order exampleFrame ["unknown-tag"] c2Hash c2Templates).2.2
      (by decide) (by decide)).2 exampleHelpers exampleStore none⟩

/-- The scan of `EvaluatedHash.at` never finds a key that is absent. -/
theorem hashAtScan_not_mem (keys : List String) (values : List RefNode) (key : String)
    (h : key ∉ keys) : hashAtScan keys values key = none := by
  induction keys generalizing values with
  | nil => cases values <;> rfl
  | cons k ks ih =>
    cases values with
    | nil => rfl
    | cons v vs =>
      have hk : ¬ (k = key) := fun hkk => h (hkk ▸ List.mem_cons_self k ks)
      simp only [hashAtScan, beq_iff_eq, if_neg hk]
      exact ih vs (fun hm => h (List.mem_cons_of_mem k hm))

/-- The scan of `EvaluatedHash.at` returns the value slot of the first key
occurrence. -/
theorem hashAtScan_first_match (xs ys : List String) (values : List RefNode) (key : String)
    (h : key ∉ xs) : hashAtScan (xs ++ key :: ys) values key = values.get? xs.length := by
  induction xs generalizing values with
  | nil =>
    cases values with
    | nil => rfl
    | cons v vs => simp [hashAtScan]
  | cons x xs' ih =>
    cases values with
    | nil =>
      have : hashAtScan (x :: (xs' ++ key :: ys)) [] key = none := rfl
      simpa using this
    | cons v vs =>
      have hx : ¬ (x = key) := fun hxx => h (hxx ▸ List.mem_cons_self x xs')
      simp only [List.cons_append, hashAtScan, beq_iff_eq, if_neg hx]
      exact ih vs (fun hm => h (List.mem_cons_of_mem x hm))

def c4Hash : Hash :=
  Hash.fromSpec (some [("a", .literal (.num 1)), ("b", .literal (.num 2))])

def c4Ref : RefNode := Hash.evaluate exampleFrame c4Hash

/-- Claim C4: `EvaluatedHash.at(key)` scans the keys in insertion order and
returns the value reference at the first matching index (first occurrence
wins on duplicates); a missing key returns no reference; and for the hash
decoded from keys `a, b` and values `1, 2` the returned references pull `1`
and `2` while a lookup of `c` returns none. -/
theorem c4_evaluatedHash_at (keys xs ys : List String) (values : List RefNode) (key : String) :
    (key ∉ keys → EvaluatedHash.at (.evaluatedHash keys values) key = none)
    ∧ (key ∉ xs →
        EvaluatedHash.at (.evaluatedHash (xs ++ key :: ys) values) key = values.get? xs.length)
    ∧ ((EvaluatedHash.at c4Ref "a").map (RefNode.value exampleHelpers exampleStore)
        = some (.num 1))
    ∧ ((EvaluatedHash.at c4Ref "b").map (RefNode.value exampleHelpers exampleStore)
        = some (.num 2))
    ∧ EvaluatedHash.at c4Ref "c" = none := by
  refine ⟨fun h => hashAtScan_not_mem keys values key h,
    fun h => hashAtScan_first_match xs ys values key h, rfl, rfl, rfl⟩

/-- Witness for C4: the first-occurrence scan and the missing-key case at
concrete inputs, including a duplicated key resolved to its first value. -/
theorem c4_witness :
    EvaluatedHash.at (.evaluatedHash ["x"] [.constRef .null]) "k" = none
    ∧ EvaluatedHash.at
        (.evaluatedHash (["a"] ++ "k" :: ["k"])
          [.constRef (.num 10), .constRef (.num 20), .constRef (.num 30)]) "k"
        = some (.constRef (.num 20)) :=
  ⟨(c4_evaluatedHash_at ["x"] [] [] [.constRef .null] "k").1 (by decide),
   (c4_evaluatedHash_at [] ["a"] ["k"]
      [.constRef (.num 10), .constRef (.num 20), .constRef (.num 30)] "k").2.1 (by decide)⟩

/-- `get?` through a zip of two lists. -/
theorem zip_get? {α β : Type} (l₁ : List α) (l₂ : List β) (i : Nat) (a : α) (b : β)
    (h₁ : l₁.get? i = some a) (h₂ : l₂.get? i = some b) :
    (l₁.zip l₂).get? i = some (a, b) := by
  induction l₁ generalizing l₂ i with
  | nil => simp at h₁
  | cons x xs ih =>
    cases l₂ with
    | nil => simp at h₂
    | cons y ys =>
      cases i with
      | zero =>
        simp only [List.get?] at h₁ h₂
        cases h₁; cases h₂; rfl
      | succ j =>
        simp only [List.get?] at h₁ h₂ ⊢
        exact ih ys j h₁ h₂

/-- Claim C7: at `FallbackMorph` init time, each attribute expression of the
hash whose `isStatic` flag is set is converted once into a static attribute
baked from its evaluated value, every other expression becomes a dynamic
attribute, and `update` is a no-op so the conversion is never redone. -/
theorem c7_fallback_attr_conversion (helpers : Nat → JSValue → JSValue)
    (store : Nat → JSValue) (frame : Frame) (path : List String) (hash : Hash)
    (template : Option TemplateBody) (i : Nat) (val : ExpressionSyntax) (key : String)
    (hv : hash.values.get? i = some val) (hk : hash.keys.get? i = some key) :
    (FallbackMorph.init helpers store frame path hash template).attrs.get? i
      = some (if val.isStatic then
          StaticAttr.build key ((val.evaluate frame).value helpers store) none
        else DynamicAttr.build key val none)
    ∧ FallbackMorph.update (FallbackMorph.init helpers store frame path hash template)
        = FallbackMorph.init helpers store frame path hash template := by
  constructor
  · have hz : (hash.values.zip hash.keys).get? i = some (val, key) :=
      zip_get? hash.values hash.keys i val key hv hk
    have hz' : (hash.values.zip hash.keys)[i]? = some (val, key) := by
      rwa [← List.get?_eq_getElem?]
    simp [FallbackMorph.init, List.getElem?_map, hz']
  · rfl

/-- `markFront` only touches position 0. -/
theorem markFront_get? (l : List MarkedStatement) (i : Nat) :
    (markFront l).get? i
      = if i = 0 then (l.get? 0).map MarkedStatement.setFront else l.get? i := by
  cases l with
  | nil => cases i <;> simp [markFront]
  | cons m rest => cases i with
    | zero => simp [markFront]
    | succ j => simp [markFront]

/-- `markBack` only touches the last position. -/
theorem markBack_get? (l : List MarkedStatement) (i : Nat) :
    (markBack l).get? i
      = if i + 1 = l.length then (l.get? i).map MarkedStatement.setBack else l.get? i := by
  induction l generalizing i with
  | nil => simp [markBack]
  | cons m rest ih =>
    cases rest with
    | nil =>
      cases i with
      | zero => simp [markBack]
      | succ j => simp [markBack]
    | cons m' rest' =>
      have hmb : markBack (m :: m' :: rest') = m :: markBack (m' :: rest') := rfl
      cases i with
      | zero =>
        have hne : ¬ (0 + 1 = (m :: m' :: rest').length) := by simp
        rw [hmb, if_neg hne]
        rfl
      | succ j =>
        have hlist : (m :: markBack (m' :: rest')).get? (j + 1)
            = (markBack (m' :: rest')).get? j := rfl
        rw [hmb, hlist, ih j]
        by_cases hc : j + 1 = (m' :: rest').length
        · rw [if_pos hc, if_pos (by simpa using congrArg Nat.succ hc)]
          rfl
        · rw [if_neg hc, if_neg (fun hcc => hc (by simpa using hcc))]
          rfl

theorem markFront_length (l : List MarkedStatement) : (markFront l).length = l.length := by
  cases l <;> rfl

theorem markBack_length (l : List MarkedStatement) : (markBack l).length = l.length := by
  induction l with
  | nil => rfl
  | cons m rest ih =>
    cases rest with
    | nil => rfl
    | cons m' rest' =>
      have hmb : markBack (m :: m' :: rest') = m :: markBack (m' :: rest') := rfl
      rw [hmb, List.length_cons, List.length_cons, ih]

theorem setFront_flags (m : MarkedStatement) :
    (m.setFront.frontBoundary, m.setFront.backBoundary) = (true, m.backBoundary) := by
  cases m; rfl

theorem setBack_flags (m : MarkedStatement) :
    (m.setBack.frontBoundary, m.setBack.backBoundary) = (m.frontBoundary, true) := by
  cases m; rfl

theorem get?_map' {α β : Type} (f : α → β) (l : List α) (i : Nat) :
    (l.map f).get? i = (l.get? i).map f := by
  simp [List.get?_eq_getElem?, List.getElem?_map]

/-- Complete characterization of the boundary flags assigned by
`buildStatements`: position 0 is front-marked exactly when the first sexp's
tag is boundary-eligible, the last position is back-marked exactly when the
last sexp's tag is, and every other flag is unset. -/
theorem buildStatements_boundary_flags (sexps : List StatementSexp)
    (list : List TemplateBody) (i : Nat) :
    ((buildStatements sexps list).get? i).map (fun m => (m.frontBoundary, m.backBoundary))
      = (sexps.get? i).map (fun _ =>
          (decide (i = 0) && boundaryHead sexps,
           decide (i + 1 = sexps.length) && boundaryLast sexps)) := by
  cases sexps with
  | nil => simp [buildStatements]
  | cons s₀ rest =>
    simp only [buildStatements, List.isEmpty_cons, Bool.false_eq_true, if_false]
    set base := (s₀ :: rest).map
      (fun s => MarkedStatement.mk (StatementSyntax.fromSpec s list) false false) with hbase
    have hbaseLen : base.length = (s₀ :: rest).length := by rw [hbase, List.length_map]
    have hbaseGet : ∀ j s, (s₀ :: rest).get? j = some s →
        base.get? j = some (MarkedStatement.mk (StatementSyntax.fromSpec s list) false false) := by
      intro j s hj
      rw [hbase, get?_map', hj]
      rfl
    have hsome : ∀ j, j < (s₀ :: rest).length → ∃ s, (s₀ :: rest).get? j = some s := by
      intro j hj
      rcases hx : (s₀ :: rest).get? j with _ | s
      · exact absurd (List.get?_eq_none.mp hx) (by omega)
      · exact ⟨s, rfl⟩
    by_cases hf : boundaryHead (s₀ :: rest) = true <;>
      by_cases hb : boundaryLast (s₀ :: rest) = true
    · -- front and back eligible
      rw [if_pos hf, if_pos hb, markBack_get?, markFront_length, hbaseLen]
      by_cases hl : i + 1 = (s₀ :: rest).length
      · rw [if_pos hl, markFront_get?]
        by_cases hi : i = 0
        · subst hi
          have h0 := hbaseGet 0 s₀ rfl
          simp only [List.get?_eq_getElem?] at h0 ⊢
          simp [h0, setFront_flags, setBack_flags, MarkedStatement.setFront,
            MarkedStatement.setBack, MarkedStatement.frontBoundary,
            MarkedStatement.backBoundary, hl, hf, hb]
        · rw [if_neg hi]
          obtain ⟨s, hs⟩ := hsome i (by omega)
          have hbi := hbaseGet i s hs
          simp only [List.get?_eq_getElem?] at hbi hs ⊢
          simp [hbi, hs, MarkedStatement.setBack, MarkedStatement.frontBoundary,
            MarkedStatement.backBoundary, hi, hl, hf, hb]
      · rw [if_neg hl, markFront_get?]
        by_cases hi : i = 0
        · subst hi
          have h0 := hbaseGet 0 s₀ rfl
          simp only [List.get?_eq_getElem?] at h0 ⊢
          simp [h0, MarkedStatement.setFront, MarkedStatement.frontBoundary,
            MarkedStatement.backBoundary, hl, hf, hb]
          intro hrest
          exact hl (by simp [hrest])
        · rw [if_neg hi]
          rcases hx : (s₀ :: rest).get? i with _ | s
          · rw [hbase, get?_map', hx]
            simp [hx]
          · have hbi := hbaseGet i s hx
            simp only [List.get?_eq_getElem?] at hbi hx ⊢
            simp [hbi, hx, MarkedStatement.frontBoundary, MarkedStatement.backBoundary,
              hi, hl, hf, hb]
            intro hieq
            exact hl (by simp [hieq])
    · -- only front eligible
      rw [if_pos hf, if_neg hb, markFront_get?]
      by_cases hi : i = 0
      · subst hi
        have h0 := hbaseGet 0 s₀ rfl
        simp only [List.get?_eq_getElem?] at h0 ⊢
        simp [h0, MarkedStatement.setFront, MarkedStatement.frontBoundary,
          MarkedStatement.backBoundary, hf, Bool.eq_false_iff.mpr hb]
      · rw [if_neg hi]
        rcases hx : (s₀ :: rest).get? i with _ | s
        · rw [hbase, get?_map', hx]
          simp [hx]
        · have hbi := hbaseGet i s hx
          simp only [List.get?_eq_getElem?] at hbi hx ⊢
          simp [hbi, hx, MarkedStatement.frontBoundary, MarkedStatement.backBoundary,
            hi, hf, Bool.eq_false_iff.mpr hb]
    · -- only back eligible
      rw [if_neg hf, if_pos hb, markBack_get?, hbaseLen]
      by_cases hl : i + 1 = (s₀ :: rest).length
      · rw [if_pos hl]
        obtain ⟨s, hs⟩ := hsome i (by omega)
        have hbi := hbaseGet i s hs
        simp only [List.get?_eq_getElem?] at hbi hs ⊢
        simp [hbi, hs, MarkedStatement.setBack, MarkedStatement.frontBoundary,
          MarkedStatement.backBoundary, hl, hb, Bool.eq_false_iff.mpr hf]
      · rw [if_neg hl]
        rcases hx : (s₀ :: rest).get? i with _ | s
        · rw [hbase, get?_map', hx]
          simp [hx]
        · have hbi := hbaseGet i s hx
          simp only [List.get?_eq_getElem?] at hbi hx ⊢
          simp [hbi, hx, MarkedStatement.frontBoundary, MarkedStatement.backBoundary,
            hl, Bool.eq_false_iff.mpr hf]
          intro hieq
          exact absurd (by simp [hieq]) hl
    · -- neither eligible
      rw [if_neg hf, if_neg hb]
      rcases hx : (s₀ :: rest).get? i with _ | s
      · rw [hbase, get?_map', hx]
        simp [hx]
      · have hbi := hbaseGet i s hx
        simp only [List.get?_eq_getElem?] at hbi hx ⊢
        simp [hbi, hx, MarkedStatement.frontBoundary, MarkedStatement.backBoundary,
          Bool.eq_false_iff.mpr hf, Bool.eq_false_iff.mpr hb]

/-- Claim C3 (amended): boundary marking happens only on the decode path —
`buildStatements` front-marks exactly the first statement when its tag is
boundary-eligible and back-marks exactly the last under the same condition,
with every other flag unset; `Template.fromStatements` performs no marking at
all and stores the given statement objects unchanged. -/
theorem c3_boundary_marking :
    (∀ (sexps : List StatementSexp) (list : List TemplateBody) (i : Nat),
      ((buildStatements sexps list).get? i).map (fun m => (m.frontBoundary, m.backBoundary))
        = (sexps.get? i).map (fun _ =>
            (decide (i = 0) && boundaryHead sexps,
             decide (i + 1 = sexps.length) && boundaryLast sexps)))
    ∧ (∀ statements, (Template.fromStatements statements).statements = statements) :=
  ⟨buildStatements_boundary_flags, fun _ => rfl⟩

theorem fromSpecGo_length (specs : List TemplateSpec) (idx : Nat) (acc : List TemplateBody) :
    (Template.fromSpecGo specs idx acc).length = acc.length + specs.length := by
  induction specs generalizing idx acc with
  | nil => simp [Template.fromSpecGo]
  | cons s rest ih =>
    rw [Template.fromSpecGo, ih]
    simp
    omega

theorem fromSpecGo_get?_stable (specs : List TemplateSpec) (idx : Nat)
    (acc : List TemplateBody) (i : Nat) (h : i < acc.length) :
    (Template.fromSpecGo specs idx acc).get? i = acc.get? i := by
  induction specs generalizing idx acc with
  | nil => rfl
  | cons s rest ih =>
    rw [Template.fromSpecGo,
      ih (idx + 1) (acc ++ [decodedBody s idx acc])
        (by simp only [List.length_append, List.length_cons, List.length_nil]; omega),
      List.get?_append h]

/-- Each decoded sibling is the `Template` built from its spec at its own
position against some prefix of the sibling array. -/
theorem fromSpecGo_get?_at (spec : TemplateSpec) (specs : List TemplateSpec)
    (idx : Nat) (acc : List TemplateBody) (j : Nat) (h : specs.get? j = some spec) :
    ∃ pre, (Template.fromSpecGo specs idx acc).get? (acc.length + j)
      = some (decodedBody spec (idx + j) pre) := by
  induction specs generalizing idx acc j with
  | nil => simp at h
  | cons s rest ih =>
    cases j with
    | zero =>
      have hs : s = spec := by simpa using h
      subst hs
      refine ⟨acc, ?_⟩
      have hstable := fromSpecGo_get?_stable rest (idx + 1)
        (acc ++ [decodedBody s idx acc]) acc.length
        (by simp only [List.length_append, List.length_cons, List.length_nil]; omega)
      simp only [Nat.add_zero]
      rw [Template.fromSpecGo, hstable, List.get?_concat_length]
    | succ j' =>
      have h' : rest.get? j' = some spec := by simpa using h
      obtain ⟨pre, hp⟩ := ih (idx + 1) (acc ++ [decodedBody s idx acc]) j' h'
      refine ⟨pre, ?_⟩
      rw [Template.fromSpecGo,
        show acc.length + (j' + 1) = (acc ++ [decodedBody s idx acc]).length + j' by
          simp; omega,
        show idx + (j' + 1) = (idx + 1) + j' by omega]
      exact hp

/-- Claim C9: a spec whose statements array is empty decodes to a template
with `isEmpty = true`, no statements, and whose evaluation produces zero
render nodes and zero direct builder calls; in particular this holds for the
template `fromSpec` returns when the last spec is empty. -/
theorem c9_empty_template_invariant (specs : List TemplateSpec) (frame : Frame) :
    (∀ i spec, specs.get? i = some spec → spec.statements = [] →
      ∃ b, (Template.fromSpecBodies specs).get? i = some b ∧ b.isEmpty = true
        ∧ b.statements = [] ∧ b.statementEffects frame = []
        ∧ (b.evaluateWithStack frame).morphs = []
        ∧ (b.evaluateWithStack frame).builderCalls = [])
    ∧ (∀ spec, specs.getLast? = some spec → spec.statements = [] →
      ∃ t, Template.fromSpec specs = some t ∧ t.isEmpty = true
        ∧ (t.body.evaluateWithStack frame).morphs = []
        ∧ (t.body.evaluateWithStack frame).builderCalls = []) := by
  have key : ∀ i spec, specs.get? i = some spec → spec.statements = [] →
      ∃ b, (Template.fromSpecBodies specs).get? i = some b ∧ b.isEmpty = true
        ∧ b.statements = [] ∧ b.statementEffects frame = []
        ∧ (b.evaluateWithStack frame).morphs = []
        ∧ (b.evaluateWithStack frame).builderCalls = [] := by
    intro i spec h hempty
    obtain ⟨pre, hp⟩ := fromSpecGo_get?_at spec specs 0 [] i h
    simp only [List.length_nil, Nat.zero_add] at hp
    refine ⟨decodedBody spec i pre, hp, ?_, ?_, ?_, ?_, ?_⟩ <;>
      simp [decodedBody, hempty, buildStatements, TemplateBody.isEmpty,
        TemplateBody.statements, TemplateBody.statementEffects,
        TemplateBody.evaluateWithStack]
  refine ⟨key, fun spec hlast hempty => ?_⟩
  have hne : specs ≠ [] := by
    intro hnil
    rw [hnil] at hlast
    simp at hlast
  have hidx : specs.get? (specs.length - 1) = some spec := by
    rwa [← List.getLast?_eq_get?]
  obtain ⟨b, hb, hbe, hbs, hbf, hbm, hbc⟩ := key (specs.length - 1) spec hidx hempty
  have hlen : (Template.fromSpecBodies specs).length = specs.length := by
    have := fromSpecGo_length specs 0 []
    simpa [Template.fromSpecBodies] using this
  have hblast : (Template.fromSpecBodies specs).getLast? = some b := by
    rw [List.getLast?_eq_get?, hlen]
    exact hb
  refine ⟨{ body := b, root := some (Template.fromSpecBodies specs) }, ?_, hbe, hbm, hbc⟩
  rw [Template.fromSpec, hblast]
  rfl

def c9Specs : List TemplateSpec := [{ statements := [], locals := none }]

/-- Witness for C9: a one-element spec array with an empty statements
array. -/
theorem c9_witness :
    (∃ b, (Template.fromSpecBodies c9Specs).get? 0 = some b ∧ b.isEmpty = true
      ∧ b.statements = [] ∧ b.statementEffects exampleFrame = []
      ∧ (b.evaluateWithStack exampleFrame).morphs = []
      ∧ (b.evaluateWithStack exampleFrame).builderCalls = [])
    ∧ (∃ t, Template.fromSpec c9Specs = some t ∧ t.isEmpty = true
      ∧ (t.body.evaluateWithStack exampleFrame).morphs = []
      ∧ (t.body.evaluateWithStack exampleFrame).builderCalls = []) :=
  ⟨(c9_empty_template_invariant c9Specs exampleFrame).1 0 { statements := [], locals := none }
      rfl rfl,
   (c9_empty_template_invariant c9Specs exampleFrame).2 { statements := [], locals := none }
      rfl rfl⟩

/-- Every statement class of the source defines a `prettyPrint` method. -/
theorem prettyPrintOf_isSome (s : StatementSyntax) : ∃ d, s.prettyPrintOf = some d := by
  cases s <;> exact ⟨_, rfl⟩

theorem mapM_pretty_ok (l : List MarkedStatement) :
    ∃ out, (l.mapM (fun m => pretty m.stmt.prettyPrintOf)) = Except.ok out
      ∧ out.length = l.length := by
  induction l with
  | nil => exact ⟨[], rfl, rfl⟩
  | cons m rest ih =>
    obtain ⟨d, hd⟩ := prettyPrintOf_isSome m.stmt
    obtain ⟨out, hout, hlen⟩ := ih
    refine ⟨d :: out, ?_, by simp [hlen]⟩
    have hfm : pretty m.stmt.prettyPrintOf = Except.ok d := by rw [hd]; rfl
    rw [List.mapM_cons, hfm, hout]
    rfl

theorem mapM_templates_ok (root : List TemplateBody) :
    ∃ out, (root.mapM (fun tb => tb.statements.mapM (fun m => pretty m.stmt.prettyPrintOf)))
      = Except.ok out ∧ out.length = root.length := by
  induction root with
  | nil => exact ⟨[], rfl, rfl⟩
  | cons tb rest ih =>
    obtain ⟨row, hrow, _⟩ := mapM_pretty_ok tb.statements
    obtain ⟨out, hout, hlen⟩ := ih
    refine ⟨row :: out, ?_, by simp [hlen]⟩
    rw [List.mapM_cons, hrow, hout]
    rfl

def c10Specs : List TemplateSpec :=
  [{ statements := [.text "a"], locals := none },
   { statements := [.comment "b"], locals := none }]

/-- Claim C10: `Template.prettyPrint` is only defined for decoded templates —
it maps over the whole sibling `root` array and returns every sibling's
statement dumps (one row per sibling), fails on a programmatically built
template (`root` is null), and the `pretty` helper fails on anything lacking
a `prettyPrint` method; concretely, the template `fromSpec` returns for a
two-sibling spec is the position-1 template, yet its dump contains the
position-0 sibling's statements as well. -/
theorem c10_prettyPrint_semantics :
    (∀ statements, (Template.fromStatements statements).prettyPrint
        = Except.error "TypeError: this.root is null")
    ∧ (∀ (t : Template) (root : List TemplateBody), t.root = some root →
        ∃ out, t.prettyPrint = Except.ok out ∧ out.length = root.length)
    ∧ pretty none = Except.error "Cannot pretty print"
    ∧ (∃ t, Template.fromSpec c10Specs = some t
        ∧ t.body.position = some 1
        ∧ t.prettyPrint = Except.ok
            [[.node "append" "append-text" (some [.s "a"]) none none],
             [.node "append" "append-comment" (some [.s "b"]) none none]]) := by
  refine ⟨fun statements => rfl, fun t root h => ?_, rfl, ⟨_, rfl, rfl, rfl⟩⟩
  rw [Template.prettyPrint, h]
  exact mapM_templates_ok root

def c10Body : TemplateBody := TemplateBody.mk [] [] 0 none true

def c10Template : Template := { body := c10Body, root := some [c10Body] }

/-- Witness for C10: the sibling-array dump at a concrete template whose
`root` holds one sibling. -/
theorem c10_witness :
    ∃ out, c10Template.prettyPrint = Except.ok out ∧ out.length = 1 :=
  c10_prettyPrint_semantics.2.1 c10Template [c10Body] rfl

def c3InlineStatement : MarkedStatement :=
  .mk (.inline ["titleize"] false ParamsAndHash.empty) false false

/-- Counterexample for Claim C3 as stated: a programmatically built template
whose first (and only) statement is an `inline` statement does not get
`frontBoundary` set — `fromStatements` never marks — while the decode path
does mark the same shape. -/
theorem c3_counterexample :
    ((Template.fromStatements [c3InlineStatement]).statements.head?).map
        MarkedStatement.frontBoundary = some false
    ∧ ¬ (((Template.fromStatements [c3InlineStatement]).statements.head?).map
        MarkedStatement.frontBoundary = some true)
    ∧ ((buildStatements [.inline ["titleize"] none none false] []).head?).map
        MarkedStatement.frontBoundary = some true := by
  exact ⟨rfl, by decide, rfl⟩

def c7Hash : Hash := .mk ["class", "title"] [.value (.str "big"), .get ["t"]]

/-- Witness for C7: one static and one dynamic attribute expression at
concrete inputs. -/
theorem c7_witness :
    (FallbackMorph.init exampleHelpers exampleStore exampleFrame ["div"] c7Hash
        none).attrs.get? 0
      = some (StaticAttr.build "class" (.str "big") none)
    ∧ (FallbackMorph.init exampleHelpers exampleStore exampleFrame ["div"] c7Hash
        none).attrs.get? 1
      = some (DynamicAttr.build "title" (.get ["t"]) none) :=
  ⟨(c7_fallback_attr_conversion exampleHelpers exampleStore exampleFrame ["div"] c7Hash
      none 0 (.value (.str "big")) "class" rfl rfl).1,
   (c7_fallback_attr_conversion exampleHelpers exampleStore exampleFrame ["div"] c7Hash
      none 1 (.get ["t"]) "title" rfl rfl).1⟩

end Glimmer
